import Mathlib

/-!
Verification of the Fashion-MNIST classifier edge function
(`superbase/functions/predict/index.ts`) against its specification.

The TypeScript module is embedded shallowly:
  * `Math.random()` draws are modelled as an explicit stream of rationals
    in `[0, 1)` that each operation consumes from and threads through
    (`List ℚ`, head = next draw).  A function is deterministic exactly
    when its output does not depend on this stream.
  * Numbers are modelled as rationals (`ℚ`).
  * HTTP requests and responses are records; JSON bodies are modelled
    structurally (the code builds them with `JSON.stringify` on records).
  * Calls into `req.formData()`, `preprocessImage`, `mockPrediction` and
    the console logging performed by the handler are recorded in an event
    trace, so that claims of the form "X is never invoked" are statable.
  * The only cross-request program state in the module is the console log
    (all top-level declarations are `const`); it is threaded explicitly
    through `handle` / `runSeq`.
-/

/-- The ten Fashion-MNIST class names (`classNames`, index.ts lines 40-43). -/
def classNames : List String :=
  ["T-shirt/top", "Trouser", "Pullover", "Dress", "Coat",
   "Sandal", "Shirt", "Sneaker", "Bag", "Ankle boot"]

/-- Result record of `mockPrediction`: `{ predicted_class, confidence }`. -/
structure Prediction where
  predicted_class : String
  confidence : ℚ
  deriving Repr, DecidableEq

/-- A stream of pending `Math.random()` outputs; the JS engine guarantees
each draw lies in `[0, 1)`. -/
def ValidStream (rs : List ℚ) : Prop := ∀ x ∈ rs, 0 ≤ x ∧ x < 1

instance (rs : List ℚ) : Decidable (ValidStream rs) := by
  unfold ValidStream; infer_instance

/-- `mockPrediction` (index.ts lines 46-62): draws a uniformly random class
index via `Math.floor(Math.random() * classNames.length)` and a random
confidence `0.7 + Math.random() * 0.3`; the image buffer is ignored.
Returns the prediction together with the rest of the entropy stream. -/
def mockPrediction (imageBuffer : List ℕ) (rs : List ℚ) :
    Prediction × List ℚ :=
  let r1 := rs.headD 0
  let rs1 := rs.tail
  let r2 := rs1.headD 0
  let rs2 := rs1.tail
  let randomIndex : ℕ := ⌊r1 * (classNames.length : ℚ)⌋₊
  let confidence : ℚ := 7/10 + r2 * (3/10)
  ({ predicted_class := classNames.getD randomIndex "",
     confidence := confidence }, rs2)

/-- `preprocessImage` (index.ts lines 65-74): ignores the buffer and returns
`new Float32Array(784).fill(0.5)`; consumes no entropy. -/
def preprocessImage (imageBuffer : List ℕ) (rs : List ℚ) :
    List ℚ × List ℚ :=
  (List.replicate 784 (1/2 : ℚ), rs)

/-- CORS headers attached to every response (index.ts lines 34-38). -/
def corsHeaders : List (String × String) :=
  [("Access-Control-Allow-Origin", "*"),
   ("Access-Control-Allow-Methods", "GET, POST, PUT, DELETE, OPTIONS"),
   ("Access-Control-Allow-Headers", "Content-Type, Authorization")]

/-- Headers of every JSON response: `{ ...corsHeaders, "Content-Type":
"application/json" }`. -/
def jsonHeaders : List (String × String) :=
  corsHeaders ++ [("Content-Type", "application/json")]

/-- JSON bodies the handler can produce, modelled structurally. -/
inductive RespBody where
  /-- `null` body (the CORS preflight response). -/
  | empty : RespBody
  /-- A single-field error object. -/
  | errorMsg (e : String) : RespBody
  /-- The 500 body carrying an error and a message. -/
  | errorWith (e msg : String) : RespBody
  /-- `JSON.stringify(prediction)`. -/
  | predictionOf (p : Prediction) : RespBody
  deriving Repr, DecidableEq

/-- An HTTP response as constructed by the handler. -/
structure Response where
  status : ℕ
  headers : List (String × String)
  body : RespBody
  deriving Repr, DecidableEq

/-- The uploaded `File`: its declared content type and its bytes. -/
structure ImageFile where
  fileType : String
  buffer : List ℕ
  deriving Repr, DecidableEq

/-- Model of JavaScript `String.prototype.startsWith`: `p` is a prefix of
`s` (character-wise). -/
def strStartsWith (s p : String) : Bool := p.data.isPrefixOf s.data

/-- Outcome of `await req.formData()` followed by `formData.get("image")`:
parsing may throw (caught by the handler's `catch`), or yield a form with
or without an `image` entry. -/
inductive ReqBody where
  /-- `req.formData()` throws with this message. -/
  | malformed (msg : String) : ReqBody
  /-- A parsed form whose `image` entry is `image` (possibly absent). -/
  | form (image : Option ImageFile) : ReqBody
  deriving Repr, DecidableEq

/-- An incoming HTTP request, as far as the handler inspects it. -/
structure Request where
  method : String
  body : ReqBody
  deriving Repr, DecidableEq

/-- Observable actions of one handler run, in order. -/
inductive Event where
  /-- `await req.formData()` was invoked. -/
  | readFormData : Event
  /-- `preprocessImage` was invoked. -/
  | preprocessCall : Event
  /-- `mockPrediction` was invoked. -/
  | predictCall : Event
  /-- `console.log` of a successful prediction. -/
  | logPredicted (p : Prediction) : Event
  /-- `console.error` in the `catch` branch. -/
  | logError (msg : String) : Event
  deriving Repr, DecidableEq

/-- The `Deno.serve` request handler (index.ts lines 76-154), returning the
response, the trace of observable actions, and the remaining entropy. -/
def handler (req : Request) (rs : List ℚ) :
    Response × List Event × List ℚ :=
  if req.method = "OPTIONS" then
    (⟨200, corsHeaders, .empty⟩, [], rs)
  else if req.method ≠ "POST" then
    (⟨405, jsonHeaders, .errorMsg "Method not allowed"⟩, [], rs)
  else
    match req.body with
    | .malformed msg =>
        (⟨500, jsonHeaders, .errorWith "Internal server error" msg⟩,
         [.readFormData, .logError msg], rs)
    | .form none =>
        (⟨400, jsonHeaders, .errorMsg "No image file provided"⟩,
         [.readFormData], rs)
    | .form (some f) =>
        if ¬ (strStartsWith f.fileType "image/") then
          (⟨400, jsonHeaders,
            .errorMsg "Invalid file type. Please upload an image."⟩,
           [.readFormData], rs)
        else
          let pre := preprocessImage f.buffer rs
          let pr := mockPrediction f.buffer pre.2
          (⟨200, jsonHeaders, .predictionOf pr.1⟩,
           [.readFormData, .preprocessCall, .predictCall,
            .logPredicted pr.1], pr.2)

/-- The console-log entries a trace contributes to the process state. -/
def logsOf (evs : List Event) : List Event :=
  evs.filter fun e =>
    match e with
    | .logPredicted _ => true
    | .logError _ => true
    | _ => false

/-- One serve step: the module's only cross-request state is the console
log; the response is produced from the request and the per-call entropy. -/
def handle (st : List Event) (req : Request) (rs : List ℚ) :
    List Event × Response :=
  let out := handler req rs
  (st ++ logsOf out.2.1, out.1)

/-- Run a sequence of requests (each with its own entropy), accumulating
the process state. -/
def runSeq (st : List Event) : List (Request × List ℚ) → List Event
  | [] => st
  | q :: qs => runSeq (handle st q.1 q.2).1 qs

/-- A truncated PNG: the 8-byte PNG signature with the body cut off. -/
def truncatedPng : List ℕ := [137, 80, 78, 71, 13, 10, 26, 10]

/-- A POST request uploading the truncated PNG with content type
`image/png`. -/
def truncatedPngRequest : Request :=
  ⟨"POST", .form (some ⟨"image/png", truncatedPng⟩)⟩

/-- Claim C4: for every input buffer (and any entropy state), the
preprocessing step returns a feature vector of length exactly 784 whose
every element lies in `[0, 1]`. -/
theorem preprocess_length_and_range (buffer : List ℕ) (rs : List ℚ) :
    (preprocessImage buffer rs).1.length = 784 ∧
      ∀ x ∈ (preprocessImage buffer rs).1, 0 ≤ x ∧ x ≤ 1 := by
  refine ⟨by rw [preprocessImage]; exact List.length_replicate _ _, ?_⟩
  intro x hx
  rw [preprocessImage, List.mem_replicate] at hx
  rw [hx.2]
  norm_num

/-- Claim C5: preprocessing is deterministic and consumes no entropy: the
output does not depend on the entropy stream, and calling it twice in
sequence on the same buffer yields identical feature vectors. -/
theorem preprocess_deterministic (buffer : List ℕ) (rs rs' : List ℚ) :
    (preprocessImage buffer rs).1 = (preprocessImage buffer rs').1 ∧
      (preprocessImage buffer
        (preprocessImage buffer rs).2).1 = (preprocessImage buffer rs).1 := by
  exact ⟨rfl, rfl⟩

/-- Claim C8: the handler is stateless: after any prior sequence of calls
(starting from any console-log state), a call's response is identical to
the response of the same call made first, and equal to the pure handler
output on the request and its per-call entropy. -/
theorem classify_stateless (prior : List (Request × List ℚ))
    (st : List Event) (req : Request) (rs : List ℚ) :
    (handle (runSeq st prior) req rs).2 = (handle [] req rs).2 ∧
      (handle (runSeq st prior) req rs).2 = (handler req rs).1 := by
  exact ⟨rfl, rfl⟩

/-- Claim C9: every response the handler produces — preflight, success and
every error branch — carries the three CORS headers. -/
theorem responses_have_cors (req : Request) (rs : List ℚ) :
    ("Access-Control-Allow-Origin", "*") ∈ (handler req rs).1.headers ∧
    ("Access-Control-Allow-Methods", "GET, POST, PUT, DELETE, OPTIONS")
        ∈ (handler req rs).1.headers ∧
    ("Access-Control-Allow-Headers", "Content-Type, Authorization")
        ∈ (handler req rs).1.headers := by
  have h : (handler req rs).1.headers = corsHeaders ∨
      (handler req rs).1.headers = jsonHeaders := by
    obtain ⟨m, b⟩ := req
    unfold handler
    dsimp only
    split
    · exact Or.inl rfl
    · split
      · exact Or.inr rfl
      · rcases b with msg | img
        · exact Or.inr rfl
        · rcases img with _ | f
          · exact Or.inr rfl
          · dsimp only
            split
            · exact Or.inr rfl
            · exact Or.inr rfl
  rcases h with h | h <;> rw [h]
  · exact ⟨by decide, by decide, by decide⟩
  · exact ⟨by decide, by decide, by decide⟩

/-- Claim C10: a request whose method is neither OPTIONS nor POST gets a
405 response with body `{"error": "Method not allowed"}` without the body
ever being read, and an OPTIONS request gets 200 with an empty body. -/
theorem method_dispatch (req : Request) (rs : List ℚ) :
    (req.method ≠ "OPTIONS" → req.method ≠ "POST" →
      (handler req rs).1.status = 405 ∧
      (handler req rs).1.body = .errorMsg "Method not allowed" ∧
      Event.readFormData ∉ (handler req rs).2.1) ∧
    (req.method = "OPTIONS" →
      (handler req rs).1.status = 200 ∧
      (handler req rs).1.body = .empty) := by
  constructor
  · intro hOpt hPost
    unfold handler
    rw [if_neg hOpt, if_pos hPost]
    exact ⟨rfl, rfl, by simp⟩
  · intro hOpt
    unfold handler
    rw [if_pos hOpt]
    exact ⟨rfl, rfl⟩

/-- Witness for C10 at the concrete methods GET and OPTIONS. -/
theorem method_dispatch_witness :
    ((handler ⟨"GET", .form none⟩ []).1.status = 405 ∧
      (handler ⟨"GET", .form none⟩ []).1.body = .errorMsg "Method not allowed" ∧
      Event.readFormData ∉ (handler ⟨"GET", .form none⟩ []).2.1) ∧
    ((handler ⟨"OPTIONS", .form none⟩ []).1.status = 200 ∧
      (handler ⟨"OPTIONS", .form none⟩ []).1.body = .empty) :=
  ⟨(method_dispatch ⟨"GET", .form none⟩ []).1 (by decide) (by decide),
   (method_dispatch ⟨"OPTIONS", .form none⟩ []).2 rfl⟩

/-- Claim C7: a POST upload whose declared content type does not start
with `image/` is rejected with status 400, and neither preprocessing nor
prediction is ever invoked on it. -/
theorem non_image_rejected (req : Request) (rs : List ℚ) (f : ImageFile)
    (hm : req.method = "POST")
    (hb : req.body = .form (some f))
    (ht : strStartsWith f.fileType "image/" = false) :
    (handler req rs).1.status = 400 ∧
      Event.preprocessCall ∉ (handler req rs).2.1 ∧
      Event.predictCall ∉ (handler req rs).2.1 := by
  unfold handler
  rw [if_neg (by rw [hm]; decide), if_neg (by rw [hm]; simp), hb]
  dsimp only
  rw [if_pos (by rw [ht]; decide)]
  exact ⟨rfl, by simp, by simp⟩

/-- Witness for C7: a POST upload declared as `text/plain` is rejected
with 400 and the core is not called. -/
theorem non_image_rejected_witness :
    (handler ⟨"POST", .form (some ⟨"text/plain", []⟩)⟩ []).1.status = 400 ∧
      Event.preprocessCall ∉
        (handler ⟨"POST", .form (some ⟨"text/plain", []⟩)⟩ []).2.1 ∧
      Event.predictCall ∉
        (handler ⟨"POST", .form (some ⟨"text/plain", []⟩)⟩ []).2.1 :=
  non_image_rejected ⟨"POST", .form (some ⟨"text/plain", []⟩)⟩ []
    ⟨"text/plain", []⟩ rfl rfl (by decide)

/-- Claim C3: for every input buffer, under a valid entropy stream the mock
prediction's class is one of the ten class names and its confidence lies
in `[0.7, 1)`, hence in `[0, 1]`. -/
theorem mock_output_in_range (buffer : List ℕ) (rs : List ℚ)
    (hv : ValidStream rs) :
    (mockPrediction buffer rs).1.predicted_class ∈ classNames ∧
      7/10 ≤ (mockPrediction buffer rs).1.confidence ∧
      (mockPrediction buffer rs).1.confidence < 1 ∧
      0 ≤ (mockPrediction buffer rs).1.confidence ∧
      (mockPrediction buffer rs).1.confidence ≤ 1 := by
  have hhead : ∀ l : List ℚ, ValidStream l → 0 ≤ l.headD 0 ∧ l.headD 0 < 1 := by
    intro l hl
    cases l with
    | nil => exact ⟨le_refl 0, by norm_num⟩
    | cons a t => exact hl a (by simp)
  have htail : ValidStream rs.tail := fun x hx => hv x (List.mem_of_mem_tail hx)
  obtain ⟨h10, h11⟩ := hhead rs hv
  obtain ⟨h20, h21⟩ := hhead rs.tail htail
  unfold mockPrediction
  dsimp only
  refine ⟨?_, ?_, ?_, ?_, ?_⟩
  · have hlen : (classNames.length : ℚ) = 10 := by norm_num [classNames]
    have hfl : ⌊rs.headD 0 * (classNames.length : ℚ)⌋₊ < 10 := by
      rw [hlen]
      refine (Nat.floor_lt (mul_nonneg h10 (by norm_num))).2 ?_
      push_cast
      nlinarith
    exact (by decide : ∀ i, i < 10 → classNames.getD i "" ∈ classNames) _ hfl
  · nlinarith
  · nlinarith
  · nlinarith
  · nlinarith

/-- Witness for C3 at the concrete stream `[0, 0]` and an empty buffer. -/
theorem mock_output_in_range_witness :
    ValidStream [0, 0] ∧
      ((mockPrediction [] [0, 0]).1.predicted_class ∈ classNames ∧
        7/10 ≤ (mockPrediction [] [0, 0]).1.confidence ∧
        (mockPrediction [] [0, 0]).1.confidence < 1 ∧
        0 ≤ (mockPrediction [] [0, 0]).1.confidence ∧
        (mockPrediction [] [0, 0]).1.confidence ≤ 1) :=
  ⟨by intro x hx; fin_cases hx <;> norm_num,
   mock_output_in_range [] [0, 0]
     (by intro x hx; fin_cases hx <;> norm_num)⟩

/-- Claim C1 evidence: two runs on the same input (empty buffer) under the
valid entropy draws `0` and `0.9` return different predicted classes, so
the prediction is not a function of the input alone. -/
theorem prediction_differs_between_runs :
    ValidStream [0, 0] ∧ ValidStream [9/10, 0] ∧
    (mockPrediction [] [0, 0]).1.predicted_class = "T-shirt/top" ∧
    (mockPrediction [] [9/10, 0]).1.predicted_class = "Ankle boot" ∧
    (mockPrediction [] [0, 0]).1.predicted_class ≠
      (mockPrediction [] [9/10, 0]).1.predicted_class := by
  refine ⟨by intro x hx; fin_cases hx <;> norm_num,
    by intro x hx; fin_cases hx <;> norm_num, ?_, ?_, ?_⟩
  · simp [mockPrediction, classNames]
  · simp only [mockPrediction, List.headD, List.tail]
    norm_num [classNames]
  · simp only [mockPrediction, List.headD, List.tail]
    norm_num [classNames]
    decide

/-- Claim C2 evidence: a POST upload of a truncated PNG (valid signature,
cut-off body) is answered with HTTP 200 and a fabricated prediction that
even varies with the entropy draw — no `CorruptData` (or any) error is
produced. -/
theorem truncated_png_gets_fabricated_label :
    (handler truncatedPngRequest [0, 0]).1.status = 200 ∧
    (handler truncatedPngRequest [0, 0]).1.body =
      .predictionOf ⟨"T-shirt/top", 7/10⟩ ∧
    (handler truncatedPngRequest [9/10, 0]).1.body =
      .predictionOf ⟨"Ankle boot", 7/10⟩ := by
  refine ⟨?_, ?_, ?_⟩ <;>
    · simp only [handler, truncatedPngRequest, strStartsWith, preprocessImage,
        mockPrediction, List.headD, List.tail]
      norm_num [classNames]
      rw [if_neg (by decide)]

/-- Claim C6 evidence: the code's prediction carries no per-class
probability vector, and for one and the same input (and same predicted
class) its confidence differs between runs, so it cannot equal the maximum
of input-determined probabilities. -/
theorem confidence_unrelated_to_probabilities :
    (mockPrediction [] [0, 0]).1.confidence = 7/10 ∧
    (mockPrediction [] [0, 1/2]).1.confidence = 17/20 ∧
    (mockPrediction [] [0, 0]).1.predicted_class =
      (mockPrediction [] [0, 1/2]).1.predicted_class ∧
    (mockPrediction [] [0, 0]).1.confidence ≠
      (mockPrediction [] [0, 1/2]).1.confidence := by
  refine ⟨?_, ?_, ?_, ?_⟩
  · simp only [mockPrediction, List.headD, List.tail]
    norm_num
  · simp only [mockPrediction, List.headD, List.tail]
    norm_num
  · simp only [mockPrediction, List.headD, List.tail]
  · simp only [mockPrediction, List.headD, List.tail]
    norm_num
